import Mathlib

/-!
Verification of `scripts/ingest_nba_data.py` from the nba-dbt-pipeline
repository: a shallow embedding of the two fetch functions and of the
DuckDB loader, with theorems settling the specification claims.
-/

set_option autoImplicit false

namespace NbaIngest

/--
A pandas DataFrame, modelled as an ordered list of column names together
with an ordered list of rows (each row a list of cell values).
-/
structure DataFrame where
  columns : List String
  rows : List (List String)
deriving DecidableEq, Repr

/--
An upstream nba_api endpoint response: the service may return several
related result sets per request, in order.
-/
structure EndpointResponse where
  resultSets : List DataFrame
deriving DecidableEq, Repr

/--
The request parameters of the `CommonAllPlayers` endpoint that the script
sets. `is_only_current_season = 0` asks the service to include
non-current (historical) players; `1` restricts to the current season.
-/
structure CommonAllPlayersRequest where
  is_only_current_season : Nat
deriving DecidableEq, Repr

/-- The request holds the "include historical players" flag exactly when
`is_only_current_season` is `0`. -/
def includesHistoricalPlayers (r : CommonAllPlayersRequest) : Prop :=
  r.is_only_current_season = 0

instance (r : CommonAllPlayersRequest) : Decidable (includesHistoricalPlayers r) := by
  unfold includesHistoricalPlayers
  infer_instance

/--
The fixed request issued by `fetch_player_metadata`: the source constructs
`commonallplayers.CommonAllPlayers(is_only_current_season=0)` with no
caller-supplied parameters.
-/
def fetch_player_metadata_request : CommonAllPlayersRequest :=
  { is_only_current_season := 0 }

/--
The pandas `DataFrame` constructor applied to a raw nba_api endpoint
object (as in `pd.DataFrame(player_data)` in the source). The endpoint
object is neither dict-like nor iterable, so pandas raises
`ValueError("DataFrame constructor not properly called!")`; it never
produces a table from the response carried inside the object.
-/
def pd_DataFrame_of_endpoint_object (_resp : EndpointResponse) : Except String DataFrame :=
  .error "DataFrame constructor not properly called!"

/--
Embedding of `fetch_player_metadata`: build the `CommonAllPlayers`
endpoint object with `is_only_current_season=0` (issuing the upstream
request) and pass the endpoint object itself to the pandas `DataFrame`
constructor. `upstream` models the external service as a function from
request to response.
-/
def fetch_player_metadata (upstream : CommonAllPlayersRequest → EndpointResponse) :
    Except String DataFrame :=
  pd_DataFrame_of_endpoint_object (upstream fetch_player_metadata_request)

/--
What the docstring of `fetch_player_metadata` promises ("DataFrame
containing metadata for all players") and what the sibling function does:
extract the first result set of the response.
-/
def first_result_set (resp : EndpointResponse) : Option DataFrame :=
  resp.resultSets.head?

/--
The season string actually used for the upstream request of
`fetch_player_stats`: the caller-supplied argument when present,
otherwise the fixed Python default literal `"2024-25"`.
-/
def requested_season (seasonArg : Option String) : String :=
  seasonArg.getD "2024-25"

/--
Embedding of `fetch_player_stats`: request the `LeagueDashPlayerStats`
endpoint for the (possibly defaulted) season and return
`stats.get_data_frames()[0]`, the first of the returned result sets
(`none` models the IndexError when the service returns no result set).
`upstream` models the external service as a function from season label to
response.
-/
def fetch_player_stats (upstream : String → EndpointResponse)
    (seasonArg : Option String) : Option DataFrame :=
  (upstream (requested_season seasonArg)).resultSets.head?

/-- A table is addressed by a (schema, table-name) pair. -/
abbrev TableKey := String × String

/--
The state of a DuckDB database file: the set of existing schemas and an
association of fully qualified table names to their contents.
-/
structure DuckDBState where
  schemas : List String
  tables : List (TableKey × DataFrame)
deriving DecidableEq, Repr

/-- Look up the contents of a table in an association list. -/
def lookupTbl (l : List (TableKey × DataFrame)) (k : TableKey) : Option DataFrame :=
  match l with
  | [] => none
  | p :: ps => if p.1 = k then some p.2 else lookupTbl ps k

/-- Drop every entry for a key from an association list. -/
def eraseTbl (k : TableKey) (l : List (TableKey × DataFrame)) :
    List (TableKey × DataFrame) :=
  match l with
  | [] => []
  | p :: ps => if p.1 = k then eraseTbl k ps else p :: eraseTbl k ps

/-- Look up the contents of a table in a database state. -/
def lookupTable (s : DuckDBState) (k : TableKey) : Option DataFrame :=
  lookupTbl s.tables k

/--
DuckDB `create or replace table k as select * from df`: any existing
table named `k` is dropped and a table holding exactly `df` is created in
its place; schemas are untouched.
-/
def setTable (s : DuckDBState) (k : TableKey) (df : DataFrame) : DuckDBState :=
  { s with tables := (k, df) :: eraseTbl k s.tables }

/--
DuckDB `create schema if not exists name`: adds the schema when absent
and leaves the state unchanged when it is already present.
-/
def createSchemaIfNotExists (s : DuckDBState) (name : String) : DuckDBState :=
  if name ∈ s.schemas then s else { s with schemas := name :: s.schemas }

/-- The SQL statements `load_to_duckdb` executes, as a small syntax. -/
inductive Stmt where
  | createSchema (name : String)
  | createOrReplaceTableAs (key : TableKey) (df : DataFrame)
deriving DecidableEq, Repr

/-- Per-statement-atomic effect of one statement on the database state. -/
def execStmt (s : DuckDBState) : Stmt → DuckDBState
  | .createSchema name => createSchemaIfNotExists s name
  | .createOrReplaceTableAs k df => setTable s k df

/--
Run a list of statements in order on a connection. `failAt = some i`
means the storage layer fails while executing the i-th statement (0
based): execution stops there and, each statement being atomic, the
state is the one reached before that statement; `.error` carries that
state (the connection is closed on every exit path, with no rollback of
earlier statements). `failAt = none` means no storage failure occurs.
-/
def runStmts : Option Nat → List Stmt → DuckDBState → Except DuckDBState DuckDBState
  | _, [], s => .ok s
  | some 0, _ :: _, s => .error s
  | some (n + 1), st :: rest, s => runStmts (some n) rest (execStmt s st)
  | none, st :: rest, s => runStmts none rest (execStmt s st)

/--
The statement list of `load_to_duckdb(df_players, df_player_stats, ...)`:
ensure schema `raw` exists, then replace `raw.players` with `df_players`,
then replace `raw.player_stats` with `df_player_stats`, in that order, on
one connection.
-/
def load_to_duckdb_stmts (df_players df_player_stats : DataFrame) : List Stmt :=
  [ .createSchema "raw",
    .createOrReplaceTableAs ("raw", "players") df_players,
    .createOrReplaceTableAs ("raw", "player_stats") df_player_stats ]

/-- The database state after a fully successful `load_to_duckdb` run. -/
def loadRun (df_players df_player_stats : DataFrame) (s : DuckDBState) : DuckDBState :=
  setTable
    (setTable (createSchemaIfNotExists s "raw") ("raw", "players") df_players)
    ("raw", "player_stats") df_player_stats

end NbaIngest

open NbaIngest

section LoaderLemmas

theorem lookupTbl_eraseTbl_ne (k k' : TableKey) (l : List (TableKey × DataFrame))
    (h : k' ≠ k) : lookupTbl (eraseTbl k l) k' = lookupTbl l k' := by
  induction l with
  | nil => rfl
  | cons p ps ih =>
      by_cases hp : p.1 = k
      · simp [eraseTbl, lookupTbl, hp, Ne.symm h, ih]
      · by_cases hq : p.1 = k'
        · simp [eraseTbl, lookupTbl, hp, hq, h]
        · simp [eraseTbl, lookupTbl, hp, hq, ih]

theorem eraseTbl_eraseTbl_self (k : TableKey) (l : List (TableKey × DataFrame)) :
    eraseTbl k (eraseTbl k l) = eraseTbl k l := by
  induction l with
  | nil => rfl
  | cons p ps ih =>
      by_cases hp : p.1 = k
      · simp [eraseTbl, hp, ih]
      · simp [eraseTbl, hp, ih]

theorem eraseTbl_comm (a b : TableKey) (l : List (TableKey × DataFrame)) :
    eraseTbl a (eraseTbl b l) = eraseTbl b (eraseTbl a l) := by
  induction l with
  | nil => rfl
  | cons p ps ih =>
      by_cases ha : p.1 = a
      · by_cases hb : p.1 = b
        · have hab : a = b := ha.symm.trans hb
          simp [eraseTbl, ha, hb, hab, ih]
        · have hab : a ≠ b := fun e => hb (ha.trans e)
          simp [eraseTbl, ha, hb, hab, Ne.symm hab, ih]
      · by_cases hb : p.1 = b
        · have hba : b ≠ a := fun e => ha (hb.trans e)
          simp [eraseTbl, ha, hb, hba, Ne.symm hba, ih]
        · simp [eraseTbl, ha, hb, ih]

theorem lookupTable_setTable_self (s : DuckDBState) (k : TableKey) (df : DataFrame) :
    lookupTable (setTable s k df) k = some df := by
  simp [lookupTable, setTable, lookupTbl]

theorem lookupTable_setTable_ne (s : DuckDBState) (k k' : TableKey) (df : DataFrame)
    (h : k' ≠ k) : lookupTable (setTable s k df) k' = lookupTable s k' := by
  have hk : k ≠ k' := fun hkk => h hkk.symm
  simp [lookupTable, setTable, lookupTbl, hk]
  exact lookupTbl_eraseTbl_ne k k' s.tables h

theorem createSchemaIfNotExists_tables (s : DuckDBState) (name : String) :
    (createSchemaIfNotExists s name).tables = s.tables := by
  unfold createSchemaIfNotExists
  split <;> rfl

theorem mem_createSchemaIfNotExists (s : DuckDBState) (name : String) :
    name ∈ (createSchemaIfNotExists s name).schemas := by
  unfold createSchemaIfNotExists
  by_cases h : name ∈ s.schemas
  · rw [if_pos h]
    exact h
  · rw [if_neg h]
    exact List.mem_cons_self name s.schemas

theorem createSchemaIfNotExists_of_mem (s : DuckDBState) (name : String)
    (h : name ∈ s.schemas) : createSchemaIfNotExists s name = s := by
  unfold createSchemaIfNotExists
  exact if_pos h

theorem setTable_schemas (s : DuckDBState) (k : TableKey) (df : DataFrame) :
    (setTable s k df).schemas = s.schemas := rfl

theorem runStmts_none_load (dfp dfs : DataFrame) (s : DuckDBState) :
    runStmts none (load_to_duckdb_stmts dfp dfs) s = .ok (loadRun dfp dfs s) := rfl

theorem runStmts_ok_of_ok (failAt : Option Nat) (L : List Stmt) (s s' : DuckDBState)
    (h : runStmts failAt L s = .ok s') : runStmts none L s = .ok s' := by
  induction L generalizing failAt s with
  | nil =>
      cases failAt <;> simpa [runStmts] using h
  | cons st rest ih =>
      cases failAt with
      | none => exact h
      | some n =>
          cases n with
          | zero => simp [runStmts] at h
          | succ m =>
              have h' : runStmts (some m) rest (execStmt s st) = .ok s' := h
              simpa [runStmts] using ih (some m) (execStmt s st) h'

end LoaderLemmas

/--
C2: for every upstream service and every season label S, if the service
returns result sets `first :: rest` for S, then `fetch_player_stats`
called with S returns exactly `first`; moreover the result depends only
on the first result set (the choice of the first set is fixed, with no
parameter to change it).
-/
theorem c2_fetch_player_stats_first_result_set
    (upstream : String → EndpointResponse) (S : String)
    (first : DataFrame) (rest : List DataFrame)
    (h : (upstream S).resultSets = first :: rest) :
    fetch_player_stats upstream (some S) = some first ∧
    ∀ upstream2 : String → EndpointResponse,
      (upstream2 S).resultSets.head? = (upstream S).resultSets.head? →
      fetch_player_stats upstream2 (some S) = fetch_player_stats upstream (some S) := by
  constructor
  · simp [fetch_player_stats, requested_season, h]
  · intro u2 hu
    simp [fetch_player_stats, requested_season, hu]

/-- Concrete data used by the witness theorems. -/
def dfA : DataFrame :=
  { columns := ["PLAYER_ID", "PLAYER_NAME"], rows := [["1", "A"], ["2", "B"]] }

/-- A second concrete table used by the witness theorems. -/
def dfB : DataFrame :=
  { columns := ["PLAYER_ID", "PTS"], rows := [["1", "30"]] }

/-- Witness for C2 at a concrete upstream service and season. -/
theorem c2_witness :
    ((fun _ : String => EndpointResponse.mk [dfA, dfB]) "2023-24").resultSets = dfA :: [dfB] ∧
    (fetch_player_stats (fun _ : String => EndpointResponse.mk [dfA, dfB]) (some "2023-24") = some dfA ∧
      ∀ upstream2 : String → EndpointResponse,
        (upstream2 "2023-24").resultSets.head? =
          ((fun _ : String => EndpointResponse.mk [dfA, dfB]) "2023-24").resultSets.head? →
        fetch_player_stats upstream2 (some "2023-24") =
          fetch_player_stats (fun _ : String => EndpointResponse.mk [dfA, dfB]) (some "2023-24")) :=
  ⟨rfl, c2_fetch_player_stats_first_result_set
    (fun _ => EndpointResponse.mk [dfA, dfB]) "2023-24" dfA [dfB] rfl⟩

/--
C3 evaluation: for every upstream service, `fetch_player_metadata` passes
the raw endpoint object to the pandas DataFrame constructor, which raises
`ValueError`; it therefore never returns any table at all, let alone one
mirroring the upstream response.
-/
theorem c3_fetch_player_metadata_never_returns_table
    (upstream : CommonAllPlayersRequest → EndpointResponse) :
    fetch_player_metadata upstream = .error "DataFrame constructor not properly called!" ∧
    ∀ df : DataFrame, fetch_player_metadata upstream ≠ .ok df := by
  constructor
  · rfl
  · intro df hdf
    simp [fetch_player_metadata, pd_DataFrame_of_endpoint_object] at hdf

/-- Witness for C3 evaluation at a concrete upstream service. -/
theorem c3_witness :
    fetch_player_metadata (fun _ => EndpointResponse.mk [dfA]) =
      .error "DataFrame constructor not properly called!" ∧
    ∀ df : DataFrame, fetch_player_metadata (fun _ => EndpointResponse.mk [dfA]) ≠ .ok df :=
  c3_fetch_player_metadata_never_returns_table (fun _ => EndpointResponse.mk [dfA])

/--
C7 counterexample: the season used when no argument is supplied is the
fixed literal `"2024-25"`; in particular it is not `"2025-26"`, so it
cannot equal "the current season" for every value the current season may
take.
-/
theorem c7_counterexample :
    requested_season none = "2024-25" ∧ requested_season none ≠ "2025-26" := by
  constructor
  · rfl
  · decide

/--
C7 amended: when `fetch_player_stats` is called without a season
argument, the upstream request uses the fixed default season `"2024-25"`
(the current season at the time the source was written), i.e. the no-arg
call behaves exactly like an explicit call with `"2024-25"`.
-/
theorem c7_default_season_is_2024_25 (upstream : String → EndpointResponse) :
    requested_season none = "2024-25" ∧
    fetch_player_stats upstream none = fetch_player_stats upstream (some "2024-25") := by
  exact ⟨rfl, rfl⟩

/--
C8: `fetch_player_metadata` always issues its upstream request with the
"include historical players" flag set (`is_only_current_season = 0`), and
the request it issues is a fixed constant — the function takes no
parameter by which a caller could change it, so for every upstream
service the one request reaching the service is that constant.
-/
theorem c8_fetch_player_metadata_always_includes_historical :
    includesHistoricalPlayers fetch_player_metadata_request ∧
    fetch_player_metadata_request.is_only_current_season = 0 ∧
    ∀ upstream : CommonAllPlayersRequest → EndpointResponse,
      fetch_player_metadata upstream =
        pd_DataFrame_of_endpoint_object (upstream fetch_player_metadata_request) := by
  exact ⟨rfl, rfl, fun _ => rfl⟩

section LoaderHelpers

theorem eraseTbl_cons_self (k : TableKey) (df : DataFrame)
    (l : List (TableKey × DataFrame)) :
    eraseTbl k ((k, df) :: l) = eraseTbl k l := by
  simp [eraseTbl]

theorem eraseTbl_cons_ne (k k' : TableKey) (df : DataFrame)
    (l : List (TableKey × DataFrame)) (h : k' ≠ k) :
    eraseTbl k ((k', df) :: l) = (k', df) :: eraseTbl k l := by
  simp [eraseTbl, h]

theorem lookupTable_loadRun_players (dfp dfs : DataFrame) (s : DuckDBState) :
    lookupTable (loadRun dfp dfs s) ("raw", "players") = some dfp := by
  unfold loadRun
  rw [lookupTable_setTable_ne _ _ _ _ (by decide)]
  exact lookupTable_setTable_self _ _ _

theorem lookupTable_loadRun_player_stats (dfp dfs : DataFrame) (s : DuckDBState) :
    lookupTable (loadRun dfp dfs s) ("raw", "player_stats") = some dfs := by
  unfold loadRun
  exact lookupTable_setTable_self _ _ _

theorem setTable_absorb (c : DuckDBState) (pl ps : TableKey) (dfp dfs : DataFrame)
    (hne : pl ≠ ps) :
    setTable (setTable (setTable (setTable c pl dfp) ps dfs) pl dfp) ps dfs =
      setTable (setTable c pl dfp) ps dfs := by
  simp only [setTable]
  rw [eraseTbl_cons_ne _ _ _ _ (Ne.symm hne), eraseTbl_cons_ne _ _ _ _ hne,
    eraseTbl_cons_self, eraseTbl_cons_ne _ _ _ _ hne, eraseTbl_cons_self,
    eraseTbl_comm pl ps (eraseTbl pl c.tables),
    eraseTbl_eraseTbl_self pl c.tables,
    eraseTbl_eraseTbl_self ps (eraseTbl pl c.tables)]

theorem loadRun_schemas_mem (dfp dfs : DataFrame) (s : DuckDBState) :
    "raw" ∈ (loadRun dfp dfs s).schemas := by
  have h := mem_createSchemaIfNotExists s "raw"
  simpa [loadRun, setTable_schemas] using h

theorem loadRun_idem (dfp dfs : DataFrame) (s : DuckDBState) :
    loadRun dfp dfs (loadRun dfp dfs s) = loadRun dfp dfs s := by
  have hne : (("raw", "players") : TableKey) ≠ ("raw", "player_stats") := by decide
  have hraw := loadRun_schemas_mem dfp dfs s
  show setTable
      (setTable (createSchemaIfNotExists (loadRun dfp dfs s) "raw") ("raw", "players") dfp)
      ("raw", "player_stats") dfs = loadRun dfp dfs s
  rw [createSchemaIfNotExists_of_mem _ _ hraw]
  unfold loadRun
  exact setTable_absorb (createSchemaIfNotExists s "raw") _ _ dfp dfs hne

end LoaderHelpers

/--
C1: if `load_to_duckdb` completes without error (for any storage-failure
behaviour `failAt` under which the run returned successfully), the
destination holds `raw.players` with exactly the input players table and
`raw.player_stats` with exactly the input stats table, whatever the
previous contents of those tables were (replace, not append/merge).
-/
theorem c1_load_replaces_both_tables
    (dfp dfs : DataFrame) (s : DuckDBState) (failAt : Option Nat) (s2 : DuckDBState)
    (h : runStmts failAt (load_to_duckdb_stmts dfp dfs) s = .ok s2) :
    lookupTable s2 ("raw", "players") = some dfp ∧
    lookupTable s2 ("raw", "player_stats") = some dfs := by
  have h0 : runStmts none (load_to_duckdb_stmts dfp dfs) s = .ok s2 :=
    runStmts_ok_of_ok failAt _ s s2 h
  rw [runStmts_none_load] at h0
  have hs : loadRun dfp dfs s = s2 := Except.ok.inj h0
  rw [← hs]
  exact ⟨lookupTable_loadRun_players dfp dfs s, lookupTable_loadRun_player_stats dfp dfs s⟩

/-- A concrete empty database used by the witness theorems. -/
def db0 : DuckDBState := { schemas := [], tables := [] }

/-- A concrete database that already has schema `raw` and old contents in
both destination tables, used by the witness theorems. -/
def db1 : DuckDBState :=
  { schemas := ["raw"],
    tables := [(("raw", "players"), dfB), (("raw", "player_stats"), dfA)] }

/-- Witness for C1 at concrete inputs over an empty database. -/
theorem c1_witness :
    runStmts none (load_to_duckdb_stmts dfA dfB) db0 = .ok (loadRun dfA dfB db0) ∧
    (lookupTable (loadRun dfA dfB db0) ("raw", "players") = some dfA ∧
      lookupTable (loadRun dfA dfB db0) ("raw", "player_stats") = some dfB) :=
  ⟨rfl, c1_load_replaces_both_tables dfA dfB db0 none (loadRun dfA dfB db0) rfl⟩

/--
C4: running `load_to_duckdb` twice in succession with the same inputs
leaves the destination in the same final state as running it once: both
runs succeed, and the state after the second run equals the state after
the first (replace semantics, no duplication of rows).
-/
theorem c4_load_idempotent (dfp dfs : DataFrame) (s : DuckDBState) :
    runStmts none (load_to_duckdb_stmts dfp dfs) s = .ok (loadRun dfp dfs s) ∧
    runStmts none (load_to_duckdb_stmts dfp dfs) (loadRun dfp dfs s) =
      .ok (loadRun dfp dfs (loadRun dfp dfs s)) ∧
    loadRun dfp dfs (loadRun dfp dfs s) = loadRun dfp dfs s :=
  ⟨runStmts_none_load dfp dfs s, runStmts_none_load dfp dfs (loadRun dfp dfs s),
    loadRun_idem dfp dfs s⟩

/--
C5: if the storage fails while replacing `raw.player_stats` (the third
statement) after the replacement of `raw.players` succeeded, the
resulting state has `raw.players` holding the new input data while
`raw.player_stats` still holds exactly its pre-existing contents (absent
if it did not exist): no rollback of `raw.players`, no all-or-nothing
behaviour across the two tables.
-/
theorem c5_no_cross_table_atomicity (dfp dfs : DataFrame) (s : DuckDBState) :
    runStmts (some 2) (load_to_duckdb_stmts dfp dfs) s =
      .error (setTable (createSchemaIfNotExists s "raw") ("raw", "players") dfp) ∧
    lookupTable (setTable (createSchemaIfNotExists s "raw") ("raw", "players") dfp)
      ("raw", "players") = some dfp ∧
    lookupTable (setTable (createSchemaIfNotExists s "raw") ("raw", "players") dfp)
      ("raw", "player_stats") = lookupTable s ("raw", "player_stats") := by
  refine ⟨rfl, lookupTable_setTable_self _ _ _, ?_⟩
  rw [lookupTable_setTable_ne _ _ _ _ (by decide)]
  unfold lookupTable
  rw [createSchemaIfNotExists_tables]

/--
C6: loading an empty players table (any columns, no rows) raises no
error and leaves `raw.players` existing but empty in the destination;
more generally no validation error is raised for any shape of input
tables — every load without storage failure completes successfully.
-/
theorem c6_empty_players_accepted (cols : List String) (dfs : DataFrame) (s : DuckDBState) :
    runStmts none (load_to_duckdb_stmts (DataFrame.mk cols []) dfs) s =
      .ok (loadRun (DataFrame.mk cols []) dfs s) ∧
    lookupTable (loadRun (DataFrame.mk cols []) dfs s) ("raw", "players") =
      some (DataFrame.mk cols []) ∧
    (DataFrame.mk cols []).rows = [] ∧
    ∀ dfp2 dfs2 : DataFrame, ∀ s2 : DuckDBState,
      ∃ s2f : DuckDBState,
        runStmts none (load_to_duckdb_stmts dfp2 dfs2) s2 = .ok s2f :=
  ⟨runStmts_none_load _ dfs s, lookupTable_loadRun_players _ dfs s, rfl,
    fun dfp2 dfs2 s2 => ⟨loadRun dfp2 dfs2 s2, runStmts_none_load dfp2 dfs2 s2⟩⟩

/--
C9: if the schema `raw` already exists in the destination, the
schema-creation statement is a no-op (so the load succeeds without
error); in general after the schema-creation statement the schema `raw`
exists (created when absent), and that statement is the first statement
of the load, before either table replacement.
-/
theorem c9_schema_create_if_absent (dfp dfs : DataFrame) (s : DuckDBState)
    (h : "raw" ∈ s.schemas) :
    createSchemaIfNotExists s "raw" = s ∧
    runStmts none (load_to_duckdb_stmts dfp dfs) s = .ok (loadRun dfp dfs s) ∧
    (∀ s2 : DuckDBState, "raw" ∈ (createSchemaIfNotExists s2 "raw").schemas) ∧
    (load_to_duckdb_stmts dfp dfs).head? = some (Stmt.createSchema "raw") :=
  ⟨createSchemaIfNotExists_of_mem s "raw" h, runStmts_none_load dfp dfs s,
    fun s2 => mem_createSchemaIfNotExists s2 "raw", rfl⟩

/-- Witness for C9 at a concrete database that already has schema `raw`. -/
theorem c9_witness :
    "raw" ∈ db1.schemas ∧
    (createSchemaIfNotExists db1 "raw" = db1 ∧
      runStmts none (load_to_duckdb_stmts dfA dfB) db1 = .ok (loadRun dfA dfB db1) ∧
      (∀ s2 : DuckDBState, "raw" ∈ (createSchemaIfNotExists s2 "raw").schemas) ∧
      (load_to_duckdb_stmts dfA dfB).head? = some (Stmt.createSchema "raw")) :=
  ⟨by decide, c9_schema_create_if_absent dfA dfB db1 (by decide)⟩

/--
C10: within `load_to_duckdb` the replacement of `raw.players` is the
second statement and the replacement of `raw.player_stats` the third, so
players is replaced strictly before player_stats; a failure at the
schema-creation statement leaves the state untouched, and a failure at
the `raw.players` replacement leaves only the schema possibly created,
with the contents of both destination tables unchanged.
-/
theorem c10_failure_before_stats_leaves_tables (dfp dfs : DataFrame) (s : DuckDBState) :
    (load_to_duckdb_stmts dfp dfs)[1]? =
      some (Stmt.createOrReplaceTableAs ("raw", "players") dfp) ∧
    (load_to_duckdb_stmts dfp dfs)[2]? =
      some (Stmt.createOrReplaceTableAs ("raw", "player_stats") dfs) ∧
    runStmts (some 0) (load_to_duckdb_stmts dfp dfs) s = .error s ∧
    runStmts (some 1) (load_to_duckdb_stmts dfp dfs) s =
      .error (createSchemaIfNotExists s "raw") ∧
    (createSchemaIfNotExists s "raw").tables = s.tables ∧
    lookupTable (createSchemaIfNotExists s "raw") ("raw", "players") =
      lookupTable s ("raw", "players") ∧
    lookupTable (createSchemaIfNotExists s "raw") ("raw", "player_stats") =
      lookupTable s ("raw", "player_stats") := by
  refine ⟨rfl, rfl, rfl, rfl, createSchemaIfNotExists_tables s "raw", ?_, ?_⟩
  · unfold lookupTable
    rw [createSchemaIfNotExists_tables]
  · unfold lookupTable
    rw [createSchemaIfNotExists_tables]
